import Mathlib

/-!
Shallow embedding of `src/aiida/orm/calculation/__init__.py` (class
`Calculation`) and verification of the specification's claims about it.

Python values that can live in a node's attribute store are modelled by
`PyVal`; Python exceptions relevant to this module by `PyError`; methods
that can raise return `Except PyError _`.  Parts of the repository that
the claims depend on but that are not present under `src/` (the
`calc_states` enumeration from `aiida.common.datastructures`, the base
`Node` link operations, and `aiida.execmanager.submit_calc`) are modelled
from the spec and marked as such in their doc comments.
-/

/-- Python exceptions raised by the `Calculation` code, with their message. -/
inductive PyError where
  | ValueError (msg : String)
  | ModificationNotAllowed (msg : String)
  | ValidationError (msg : String)

/-- Python values storable in a node attribute: `None`, booleans, integers,
strings, lists, tuples, and (for `last_jobinfo`) an opaque pickled blob. -/
inductive PyVal where
  | none
  | bool (b : Bool)
  | int (n : Int)
  | str (s : String)
  | list (xs : List PyVal)
  | tuple (xs : List PyVal)
  | pickled (v : PyVal)

mutual

/-- Python `unicode(v)` / `str(v)`: string conversion.  Faithful on `None`,
booleans, integers and strings (the cases the code actually converts); for
containers it produces a bracketed rendering that does not reproduce
Python's element quoting, which no claim depends on. -/
def pyUnicode : PyVal → String
  | .none => "None"
  | .bool b => if b then "True" else "False"
  | .int n => toString n
  | .str s => s
  | .list xs => "[" ++ pyUnicodeJoin xs ++ "]"
  | .tuple xs => "(" ++ pyUnicodeJoin xs ++ ")"
  | .pickled v => pyUnicode v

/-- Comma-joined rendering of the elements of a Python container. -/
def pyUnicodeJoin : List PyVal → String
  | [] => ""
  | [x] => pyUnicode x
  | x :: xs => pyUnicode x ++ ", " ++ pyUnicodeJoin xs

end

/-- Value of a decimal digit character, or `none`. -/
def digitVal (ch : Char) : Option Nat :=
  if 48 ≤ ch.toNat ∧ ch.toNat ≤ 57 then some (ch.toNat - 48) else Option.none

/-- Decimal value of a nonempty all-digit character list, or `none`. -/
def digitsToNat : List Char → Option Nat
  | [] => Option.none
  | cs => cs.foldl (fun acc ch =>
      match acc, digitVal ch with
      | some a, some d => some (a * 10 + d)
      | _, _ => Option.none) (some 0)

/-- Python `int(s)` on a string: an optional minus sign followed by decimal
digits (surrounding whitespace and a leading plus, which Python also
accepts, are not modelled; no claim exercises them). -/
def parseIntStr (s : String) : Option Int :=
  match s.data with
  | '-' :: rest => (digitsToNat rest).map (fun n => -(n : Int))
  | cs => (digitsToNat cs).map (fun n => (n : Int))

/-- Python `int(v)`: `some` of the converted integer, or `none` when the
conversion raises (`TypeError` on `None` and containers, `ValueError` on a
non-numeric string).  `int` of a `bool` yields 0 or 1; `int` of a numeric
string parses it. -/
def pyInt : PyVal → Option Int
  | .bool b => some (if b then 1 else 0)
  | .int n => some n
  | .str s => parseIntStr s
  | _ => Option.none

/-- Python `v == s` for a string constant `s`: in Python an object equals a
`str` only if it is an equal string, so this is faithful for every `PyVal`. -/
def pyEqStr (v : PyVal) (s : String) : Bool :=
  match v with
  | .str t => t = s
  | _ => false

/-- Python `v in ss` for a list of string constants, via `==` on each. -/
def pyInStrList (v : PyVal) (ss : List String) : Bool :=
  ss.any (pyEqStr v)

/-- Modelled from the spec: the `calc_states` enumeration lives in
`aiida.common.datastructures`, which is not under `src/`; the spec closes
the enumeration as these ten states, each represented by its name string. -/
def calc_states : List String :=
  ["NEW", "SUBMITTING", "WITHSCHEDULER", "RETRIEVING", "PARSING",
   "FINISHED", "SUBMISSION_FAILED", "RETRIEVAL_FAILED", "PARSING_FAILED",
   "IMPORTED"]

/-- An attribute store: ordered key/value pairs with unique keys. -/
abbrev AttrStore := List (String × PyVal)

/-- Node.set_attr: bind `k` to `v`, replacing any previous binding. -/
def set_attr (attrs : AttrStore) (k : String) (v : PyVal) : AttrStore :=
  match attrs with
  | [] => [(k, v)]
  | (k0, v0) :: rest =>
      if k0 = k then (k, v) :: rest else (k0, v0) :: set_attr rest k v

/-- Node.get_attr with a default: the bound value, or `dflt` if absent. -/
def get_attr (attrs : AttrStore) (k : String) (dflt : PyVal) : PyVal :=
  match attrs with
  | [] => dflt
  | (k0, v0) :: rest => if k0 = k then v0 else get_attr rest k dflt

/-- The concrete kind of a node taking part in a link: `Data` subclass,
`Code` subclass, `Calculation` subclass, or some other `Node`. -/
inductive NodeKind where
  | data
  | code
  | calculation
  | other
deriving DecidableEq

/-- A link endpoint: its kind (for the `isinstance` checks) and its id. -/
structure PyNode where
  kind : NodeKind
  id : Nat
deriving DecidableEq

/-- State of a `Calculation` object: its attribute store, the
`dbnode.computer` foreign key (by computer id), the input links
(label to source id), the raw-input subfolder content (by source path),
the `_to_be_stored` flag (true while the node is not yet stored),
and its uuid. -/
structure Calculation where
  attrs : AttrStore
  dbComputer : Option Nat
  inputLinks : List (String × Nat)
  rawInputFolder : Option String
  toBeStored : Bool
  uuid : String

/-- Calculation.get_state: `get_attr('state', None)`. -/
def Calculation.get_state (c : Calculation) : PyVal :=
  get_attr c.attrs "state" PyVal.none

/-- Calculation.get_num_machines: `get_attr('num_machines', None)`. -/
def Calculation.get_num_machines (c : Calculation) : PyVal :=
  get_attr c.attrs "num_machines" PyVal.none

/-- Calculation.get_num_cpus_per_machine. -/
def Calculation.get_num_cpus_per_machine (c : Calculation) : PyVal :=
  get_attr c.attrs "num_cpus_per_machine" PyVal.none

/-- Calculation.get_job_id: `get_attr('job_id', None)`. -/
def Calculation.get_job_id (c : Calculation) : PyVal :=
  get_attr c.attrs "job_id" PyVal.none

/-- Calculation.get_remote_workdir. -/
def Calculation.get_remote_workdir (c : Calculation) : PyVal :=
  get_attr c.attrs "remote_workdir" PyVal.none

/-- Calculation.get_retrieve_list. -/
def Calculation.get_retrieve_list (c : Calculation) : PyVal :=
  get_attr c.attrs "retrieve_list" PyVal.none

/-- Calculation.get_scheduler_state. -/
def Calculation.get_scheduler_state (c : Calculation) : PyVal :=
  get_attr c.attrs "scheduler_state" PyVal.none

/-- Calculation.get_last_jobinfo reads the `last_jobinfo` attribute
(the stored pickled blob; unpickling is not modelled). -/
def Calculation.get_last_jobinfo (c : Calculation) : PyVal :=
  get_attr c.attrs "last_jobinfo" PyVal.none

/-- Modelled from the spec: `get_computer` wraps `self.dbnode.computer` in a
`Computer` object (class not under `src/`); per the spec `computer_ref` is a
weak reference that is absent exactly when the foreign key is absent, so the
model returns the optional computer id directly. -/
def Calculation.get_computer (c : Calculation) : Option Nat :=
  c.dbComputer

/-- Calculation._set_state: raise `ValueError` unless the value is a member
of `calc_states` (membership via Python `in`, so only an equal state-name
string qualifies); otherwise `set_attr('state', state)`. -/
def Calculation._set_state (c : Calculation) (state : PyVal) :
    Except PyError Calculation :=
  if pyInStrList state calc_states then
    Except.ok { c with attrs := set_attr c.attrs "state" state }
  else
    Except.error (PyError.ValueError
      (pyUnicode state ++ " is not a valid calculation status"))

/-- Calculation._set_remote_workdir: raise `ModificationNotAllowed` unless
the state equals `calc_states.SUBMITTING`; otherwise store the value. -/
def Calculation._set_remote_workdir (c : Calculation) (remote_workdir : PyVal) :
    Except PyError Calculation :=
  if pyEqStr c.get_state "SUBMITTING" then
    Except.ok { c with attrs := set_attr c.attrs "remote_workdir" remote_workdir }
  else
    Except.error (PyError.ModificationNotAllowed
      ("Cannot set the remote workdir if you are not submitting the " ++
       "calculation (current state is " ++ pyUnicode c.get_state ++ ")"))

/-- The raise condition of `_set_retrieve_list` on the value, negated:
`isinstance(retrieve_list, (tuple, list))` and every element a
`basestring`. -/
def validRetrieveList : PyVal → Bool
  | .list xs => xs.all fun i => match i with | .str _ => true | _ => false
  | .tuple xs => xs.all fun i => match i with | .str _ => true | _ => false
  | _ => false

/-- Calculation._set_retrieve_list: raise `ModificationNotAllowed` unless the
state is SUBMITTING; then raise `ValueError` unless the value is a list or
tuple of strings; otherwise store it. -/
def Calculation._set_retrieve_list (c : Calculation) (retrieve_list : PyVal) :
    Except PyError Calculation :=
  if pyEqStr c.get_state "SUBMITTING" then
    if validRetrieveList retrieve_list then
      Except.ok { c with attrs := set_attr c.attrs "retrieve_list" retrieve_list }
    else
      Except.error (PyError.ValueError
        "You have to pass a list (or tuple) of strings as retrieve_list")
  else
    Except.error (PyError.ModificationNotAllowed
      ("Cannot set the retrieve_list if you are not submitting the " ++
       "calculation (current state is " ++ pyUnicode c.get_state ++ ")"))

/-- Calculation._set_job_id: raise `ModificationNotAllowed` unless the state
is SUBMITTING; otherwise store `unicode(job_id)` (always a string). -/
def Calculation._set_job_id (c : Calculation) (job_id : PyVal) :
    Except PyError Calculation :=
  if pyEqStr c.get_state "SUBMITTING" then
    Except.ok { c with attrs :=
      (set_attr c.attrs "job_id" (PyVal.str (pyUnicode job_id))) }
  else
    Except.error (PyError.ModificationNotAllowed
      ("Cannot set the job id if you are not submitting the calculation " ++
       "(current state is " ++ pyUnicode c.get_state ++ ")"))

/-- Calculation._set_scheduler_state: no test on the state or the value, just
convert the value to a string and store it. -/
def Calculation._set_scheduler_state (c : Calculation) (state : PyVal) :
    Except PyError Calculation :=
  Except.ok { c with attrs :=
    (set_attr c.attrs "scheduler_state" (PyVal.str (pyUnicode state))) }

/-- Calculation._set_last_jobinfo: no test, store `pickle.dumps(last_jobinfo)`
(modelled by the opaque `PyVal.pickled` wrapper). -/
def Calculation._set_last_jobinfo (c : Calculation) (last_jobinfo : PyVal) :
    Except PyError Calculation :=
  Except.ok { c with attrs :=
    (set_attr c.attrs "last_jobinfo" (PyVal.pickled last_jobinfo)) }

/-- Calculation.set_computer: when `_to_be_stored` is still true assign
`dbnode.computer` (via `DbComputer.get_dbcomputer`, modelled as the computer
id itself); once the node is stored raise `ModificationNotAllowed`. -/
def Calculation.set_computer (c : Calculation) (computer : Nat) :
    Except PyError Calculation :=
  if c.toBeStored then
    Except.ok { c with dbComputer := some computer }
  else
    Except.error (PyError.ModificationNotAllowed
      ("Node with uuid=" ++ c.uuid ++ " was already stored"))

/-- Calculation.validate: after the base validation (modelled from the spec
as imposing no further condition, the base `Node` class not being under
`src/`), require a computer, a state that is in `calc_states`, and
`int(...)`-convertible positive `num_machines` and `num_cpus_per_machine`;
each `try`-block failure (TypeError or ValueError from `int`, or a
non-positive result) becomes a `ValidationError`. -/
def Calculation.validate (c : Calculation) : Except PyError Unit :=
  if c.get_computer = Option.none then
    Except.error (PyError.ValidationError "You did not specify any computer")
  else if ¬ pyInStrList c.get_state calc_states then
    Except.error (PyError.ValidationError
      ("Calculation state " ++ pyUnicode c.get_state ++ " is not valid"))
  else
    match pyInt c.get_num_machines with
    | Option.none =>
        Except.error (PyError.ValidationError
          "The number of machines must be specified and must be positive")
    | some n =>
        if n ≤ 0 then
          Except.error (PyError.ValidationError
            "The number of machines must be specified and must be positive")
        else
          match pyInt c.get_num_cpus_per_machine with
          | Option.none =>
              Except.error (PyError.ValidationError
                "The number of CPUs per machine must be specified and must be positive")
          | some m =>
              if m ≤ 0 then
                Except.error (PyError.ValidationError
                  "The number of CPUs per machine must be specified and must be positive")
              else
                Except.ok ()

/-- Modelled from the spec: the base `Node.can_link_as_output` is not under
`src/`; per the spec a data-like destination is always linkable once the
calculation-specific checks have passed, so the base call succeeds. -/
def Node_can_link_as_output (_dest : PyNode) : Except PyError Unit :=
  Except.ok ()

/-- Calculation.can_link_as_output: raise `ValueError` unless the destination
is a `Data` instance; raise `ModificationNotAllowed` unless the state is one
of SUBMITTING, RETRIEVING, PARSING; then defer to the base class. -/
def Calculation.can_link_as_output (c : Calculation) (dest : PyNode) :
    Except PyError Unit :=
  if dest.kind ≠ NodeKind.data then
    Except.error (PyError.ValueError
      "The output of a calculation node can only be a data node")
  else if ¬ pyInStrList c.get_state ["SUBMITTING", "RETRIEVING", "PARSING"] then
    Except.error (PyError.ModificationNotAllowed
      ("Can add an output node to a calculation only if it is in one of " ++
       "the following states: SUBMITTING, RETRIEVING, PARSING, it is " ++
       "instead " ++ pyUnicode c.get_state))
  else
    Node_can_link_as_output dest

/-- Modelled from the spec: the base `Node.add_link_from` is not under
`src/`; per the spec it binds the label to the source id in `input_links`,
rejects rebinding an already-bound label to a different source with
`ModificationNotAllowed`, and is idempotent on rebinding to the same
source. -/
def Node_add_link_from (c : Calculation) (src : PyNode) (label : String) :
    Except PyError Calculation :=
  match c.inputLinks.lookup label with
  | some sid =>
      if sid = src.id then
        Except.ok c
      else
        Except.error (PyError.ModificationNotAllowed
          ("There is already an input link with name " ++ label))
  | Option.none =>
      Except.ok { c with inputLinks := c.inputLinks ++ [(label, src.id)] }

/-- Calculation.add_link_from: raise `ValueError` unless the source is a
`Data` or `Code` instance; raise `ModificationNotAllowed` unless the state
is in `valid_states = [NEW]`; then defer to the base class. -/
def Calculation.add_link_from (c : Calculation) (src : PyNode) (label : String) :
    Except PyError Calculation :=
  if ¬ (src.kind = NodeKind.data ∨ src.kind = NodeKind.code) then
    Except.error (PyError.ValueError
      "Nodes entering in calculation can only be of type data or code")
  else if ¬ pyInStrList c.get_state ["NEW"] then
    Except.error (PyError.ModificationNotAllowed
      ("Can add an input node to a calculation only if it is in one of " ++
       "the following states: NEW, it is instead " ++ pyUnicode c.get_state))
  else
    Node_add_link_from c src label

/-- Calculation._store_raw_input_folder: raise `ModificationNotAllowed`
unless the state is SUBMITTING; only then replace the `raw_input` subfolder
with a copy of the given folder (the folder abstraction is external, so the
copy is modelled by recording the source path). -/
def Calculation._store_raw_input_folder (c : Calculation) (folder_path : String) :
    Except PyError Calculation :=
  if ¬ pyEqStr c.get_state "SUBMITTING" then
    Except.error (PyError.ModificationNotAllowed
      ("The raw input folder can be stored only if the state is " ++
       "SUBMITTING, it is instead " ++ pyUnicode c.get_state))
  else
    Except.ok { c with rawInputFolder := some folder_path }

/-- Outcome of a `submit` call: the calculation afterwards, the surfaced
error if any, and how many delegation attempts were made to the external
execution-management collaborator. -/
structure SubmitResult where
  calcNode : Calculation
  outcome : Option PyError
  delegationAttempts : Nat

/-- Modelled from the spec: `aiida.execmanager.submit_calc` is not under
`src/`; per the spec the submission coordinator requires the state to be
NEW, calls `validate()`, transitions the state to SUBMITTING, performs
exactly one delegation attempt (its result is the `delegation` argument:
`none` for success, `some e` for failure), and on delegation failure
transitions the state to SUBMISSION_FAILED and surfaces the error without
retrying. -/
def submit_calc (c : Calculation) (delegation : Option PyError) : SubmitResult :=
  if ¬ pyEqStr c.get_state "NEW" then
    { calcNode := c,
      outcome := some (PyError.ValueError
        ("Can only submit calculations in the NEW state, it is instead " ++
         pyUnicode c.get_state)),
      delegationAttempts := 0 }
  else
    match c.validate with
    | Except.error e => { calcNode := c, outcome := some e, delegationAttempts := 0 }
    | Except.ok _ =>
        let c1 : Calculation :=
          { c with attrs := set_attr c.attrs "state" (PyVal.str "SUBMITTING") }
        match delegation with
        | Option.none => { calcNode := c1, outcome := Option.none, delegationAttempts := 1 }
        | some e =>
            { calcNode := { c1 with attrs :=
                (set_attr c1.attrs "state" (PyVal.str "SUBMISSION_FAILED")) },
              outcome := some e,
              delegationAttempts := 1 }

/-- Calculation.submit: delegates to `aiida.execmanager.submit_calc`. -/
def Calculation.submit (c : Calculation) (delegation : Option PyError) :
    SubmitResult :=
  submit_calc c delegation

/-- The call raised `ModificationNotAllowed`. -/
def raisedMNA {α : Type} : Except PyError α → Bool
  | Except.error (PyError.ModificationNotAllowed _) => true
  | _ => false

/-- The call raised `ValueError`. -/
def raisedVE {α : Type} : Except PyError α → Bool
  | Except.error (PyError.ValueError _) => true
  | _ => false

/-- The call raised `ValidationError`. -/
def raisedValidationE {α : Type} : Except PyError α → Bool
  | Except.error (PyError.ValidationError _) => true
  | _ => false

/-- The call returned normally. -/
def succeeded {α : Type} : Except PyError α → Bool
  | Except.ok _ => true
  | _ => false

/-- The stored attribute value is an actual Python `int`. -/
def isPyIntVal : PyVal → Bool
  | .int _ => true
  | _ => false

/-- The `int(...) <= 0` validation test of `validate`, packaged: true when
the value coerces and the coerced value is positive. -/
def positiveIntCoercible (v : PyVal) : Bool :=
  match pyInt v with
  | some n => decide (0 < n)
  | Option.none => false

/-- A freshly created, not yet stored calculation: state NEW, a computer,
`num_machines = 2`, `num_cpus_per_machine = 4`. -/
def cNew : Calculation :=
  { attrs := [("state", PyVal.str "NEW"), ("num_machines", PyVal.int 2),
              ("num_cpus_per_machine", PyVal.int 4)],
    dbComputer := some 1,
    inputLinks := [],
    rawInputFolder := Option.none,
    toBeStored := true,
    uuid := "u-new" }

/-- A stored calculation in state SUBMITTING. -/
def cSubmitting : Calculation :=
  { attrs := [("state", PyVal.str "SUBMITTING"), ("num_machines", PyVal.int 2),
              ("num_cpus_per_machine", PyVal.int 4)],
    dbComputer := some 1,
    inputLinks := [("structure", 10)],
    rawInputFolder := Option.none,
    toBeStored := false,
    uuid := "u-sub" }

/-- A stored calculation in the terminal state FINISHED, with a previously
recorded scheduler state. -/
def cFinished : Calculation :=
  { attrs := [("state", PyVal.str "FINISHED"),
              ("scheduler_state", PyVal.str "DONE"),
              ("num_machines", PyVal.int 2),
              ("num_cpus_per_machine", PyVal.int 4)],
    dbComputer := some 1,
    inputLinks := [("structure", 10)],
    rawInputFolder := Option.none,
    toBeStored := false,
    uuid := "u-fin" }

/-- A calculation whose `num_machines` attribute holds the string "3"
rather than an integer; everything else is valid. -/
def cStrMachines : Calculation :=
  { attrs := [("state", PyVal.str "NEW"), ("num_machines", PyVal.str "3"),
              ("num_cpus_per_machine", PyVal.int 4)],
    dbComputer := some 1,
    inputLinks := [],
    rawInputFolder := Option.none,
    toBeStored := true,
    uuid := "u-str" }

/-- A data node used as a link endpoint. -/
def dataNode : PyNode := { kind := NodeKind.data, id := 10 }

/-- A code node used as a link source. -/
def codeNode : PyNode := { kind := NodeKind.code, id := 11 }

/-- A calculation node used as an illegal link endpoint. -/
def calcNodeEndpoint : PyNode := { kind := NodeKind.calculation, id := 12 }

/-- Reading back a key just written returns the written value. -/
theorem get_attr_set_attr (attrs : AttrStore) (k : String) (v d : PyVal) :
    get_attr (set_attr attrs k v) k d = v := by
  induction attrs with
  | nil => simp [set_attr, get_attr]
  | cons hd tl ih =>
      obtain ⟨k0, v0⟩ := hd
      by_cases h : k0 = k <;> simp [set_attr, get_attr, h, ih]

/-- C1: `_set_job_id`, `_set_remote_workdir` and `_set_retrieve_list`
succeed only in state SUBMITTING; in every other state they raise
`ModificationNotAllowed` (so, the setters being pure, the attribute value
is left unchanged), while in SUBMITTING the writes go through (for
`retrieve_list`, with a well-typed list of strings). -/
theorem C1_setters_require_submitting (c : Calculation) (v : PyVal)
    (xs : List String) :
    (pyEqStr c.get_state "SUBMITTING" = false →
      raisedMNA (Calculation._set_job_id c v) = true ∧
      raisedMNA (Calculation._set_remote_workdir c v) = true ∧
      raisedMNA (Calculation._set_retrieve_list c v) = true) ∧
    (pyEqStr c.get_state "SUBMITTING" = true →
      succeeded (Calculation._set_job_id c v) = true ∧
      succeeded (Calculation._set_remote_workdir c v) = true ∧
      succeeded (Calculation._set_retrieve_list c
        (PyVal.list (xs.map PyVal.str))) = true) := by
  refine ⟨fun h => ?_, fun h => ?_⟩ <;>
    simp [Calculation._set_job_id, Calculation._set_remote_workdir,
      Calculation._set_retrieve_list, raisedMNA, succeeded, h,
      validRetrieveList, List.all_eq_true]

/-- Witness for C1: in state NEW all three setters raise
`ModificationNotAllowed`; in state SUBMITTING the job id write succeeds. -/
theorem C1_setters_require_submitting_witness :
    raisedMNA (Calculation._set_job_id cNew (PyVal.int 7)) = true ∧
    succeeded (Calculation._set_job_id cSubmitting (PyVal.int 7)) = true :=
  ⟨((C1_setters_require_submitting cNew (PyVal.int 7) []).1 (by decide)).1,
   ((C1_setters_require_submitting cSubmitting (PyVal.int 7) []).2
     (by decide)).1⟩

/-- C9: `_set_state` raises `ValueError` on any value that is not a member
of the `calc_states` enumeration (leaving the state attribute unchanged,
the setter being pure), and on any member it writes the state attribute
unconditionally, with no check of the current state. -/
theorem C9_set_state_enumeration_guard (c : Calculation) (s : PyVal) :
    (pyInStrList s calc_states = false →
      raisedVE (Calculation._set_state c s) = true) ∧
    (pyInStrList s calc_states = true →
      Calculation._set_state c s =
        Except.ok { c with attrs := set_attr c.attrs "state" s }) := by
  refine ⟨fun h => ?_, fun h => ?_⟩ <;>
    simp [Calculation._set_state, raisedVE, h]

/-- Witness for C9: a bogus state name is rejected, and the valid name NEW
is written even though the calculation is currently FINISHED. -/
theorem C9_set_state_enumeration_guard_witness :
    raisedVE (Calculation._set_state cFinished (PyVal.str "BOGUS")) = true ∧
    Calculation._set_state cFinished (PyVal.str "NEW") =
      Except.ok { cFinished with
        attrs := set_attr cFinished.attrs "state" (PyVal.str "NEW") } :=
  ⟨(C9_set_state_enumeration_guard cFinished (PyVal.str "BOGUS")).1 (by decide),
   (C9_set_state_enumeration_guard cFinished (PyVal.str "NEW")).2 (by decide)⟩

/-- C2: `add_link_from` raises `ValueError` when the source is neither a
`Data` nor a `Code` instance (this check comes first); with a valid source
it raises `ModificationNotAllowed` in any state other than NEW (the Except
embedding makes the failure leave `input_links` unchanged); and only with
a valid source in state NEW does it proceed to the base-class label
binding. -/
theorem C2_add_link_from_guards (c : Calculation) (src : PyNode)
    (label : String) :
    (¬ (src.kind = NodeKind.data ∨ src.kind = NodeKind.code) →
      raisedVE (Calculation.add_link_from c src label) = true) ∧
    ((src.kind = NodeKind.data ∨ src.kind = NodeKind.code) →
      pyEqStr c.get_state "NEW" = false →
      raisedMNA (Calculation.add_link_from c src label) = true) ∧
    ((src.kind = NodeKind.data ∨ src.kind = NodeKind.code) →
      pyEqStr c.get_state "NEW" = true →
      Calculation.add_link_from c src label =
        Node_add_link_from c src label) := by
  refine ⟨fun h => ?_, fun h1 h2 => ?_, fun h1 h2 => ?_⟩
  · simp [Calculation.add_link_from, raisedVE, h]
  · simp [Calculation.add_link_from, raisedMNA, pyInStrList, h1, h2]
  · simp [Calculation.add_link_from, pyInStrList, h1, h2]

/-- Witness for C2: a calculation-kind source is rejected with `ValueError`;
a data source on a SUBMITTING calculation is rejected with
`ModificationNotAllowed`; a data source on a NEW calculation reaches the
base-class binding. -/
theorem C2_add_link_from_guards_witness :
    raisedVE (Calculation.add_link_from cNew calcNodeEndpoint "inp") = true ∧
    raisedMNA (Calculation.add_link_from cSubmitting dataNode "inp") = true ∧
    Calculation.add_link_from cNew dataNode "inp" =
      Node_add_link_from cNew dataNode "inp" :=
  ⟨(C2_add_link_from_guards cNew calcNodeEndpoint "inp").1 (by decide),
   (C2_add_link_from_guards cSubmitting dataNode "inp").2.1 (Or.inl rfl)
     (by decide),
   (C2_add_link_from_guards cNew dataNode "inp").2.2 (Or.inl rfl) (by decide)⟩

/-- C3: `can_link_as_output` raises `ValueError` when the destination is not
a `Data` instance (this check comes first); with a data destination it
raises `ModificationNotAllowed` whenever the state is outside
SUBMITTING/RETRIEVING/PARSING, and inside that window the link is judged
legal. -/
theorem C3_can_link_as_output_window (c : Calculation) (dest : PyNode) :
    (dest.kind ≠ NodeKind.data →
      raisedVE (Calculation.can_link_as_output c dest) = true) ∧
    (dest.kind = NodeKind.data →
      pyInStrList c.get_state ["SUBMITTING", "RETRIEVING", "PARSING"] = false →
      raisedMNA (Calculation.can_link_as_output c dest) = true) ∧
    (dest.kind = NodeKind.data →
      pyInStrList c.get_state ["SUBMITTING", "RETRIEVING", "PARSING"] = true →
      Calculation.can_link_as_output c dest = Except.ok ()) := by
  refine ⟨fun h => ?_, fun h1 h2 => ?_, fun h1 h2 => ?_⟩
  · simp [Calculation.can_link_as_output, raisedVE, h]
  · simp [Calculation.can_link_as_output, raisedMNA, h1, h2]
  · simp [Calculation.can_link_as_output, Node_can_link_as_output, h1, h2]

/-- Witness for C3: a calculation destination is rejected with `ValueError`;
a data destination is rejected in NEW and accepted in SUBMITTING. -/
theorem C3_can_link_as_output_window_witness :
    raisedVE (Calculation.can_link_as_output cSubmitting calcNodeEndpoint)
      = true ∧
    raisedMNA (Calculation.can_link_as_output cNew dataNode) = true ∧
    Calculation.can_link_as_output cSubmitting dataNode = Except.ok () :=
  ⟨(C3_can_link_as_output_window cSubmitting calcNodeEndpoint).1 (by decide),
   (C3_can_link_as_output_window cNew dataNode).2.1 rfl (by decide),
   (C3_can_link_as_output_window cSubmitting dataNode).2.2 rfl (by decide)⟩

/-- Counterexample to C4: `cStrMachines` has a computer, a valid state, and
`num_machines` holding the Python string "3" — which is not an integer —
yet `validate()` succeeds, because Python `int("3")` coerces the string to
a positive integer rather than raising. -/
theorem C4_validate_counterexample :
    Calculation.validate cStrMachines = Except.ok () ∧
    isPyIntVal (Calculation.get_num_machines cStrMachines) = false ∧
    Calculation.get_computer cStrMachines = some 1 ∧
    pyInStrList (Calculation.get_state cStrMachines) calc_states = true :=
  ⟨rfl, by decide, rfl, by decide⟩

/-- C4 amended: `validate()` succeeds exactly when the calculation has a
computer, its state is in the enumeration, and `num_machines` and
`num_cpus_per_machine` are each coercible by Python `int()` to a positive
value (so an integer-shaped string passes); every failure is a
`ValidationError`. -/
theorem C4_validate_amended (c : Calculation) :
    (Calculation.validate c = Except.ok () ↔
      (c.get_computer ≠ Option.none ∧
       pyInStrList c.get_state calc_states = true ∧
       positiveIntCoercible c.get_num_machines = true ∧
       positiveIntCoercible c.get_num_cpus_per_machine = true)) ∧
    (Calculation.validate c = Except.ok () ∨
     raisedValidationE (Calculation.validate c) = true) := by
  unfold Calculation.validate positiveIntCoercible
  constructor
  · constructor
    · intro h
      by_cases h1 : c.get_computer = Option.none
      · simp [h1] at h
      · by_cases h2 : pyInStrList c.get_state calc_states
        · rcases hm : pyInt c.get_num_machines with _ | n
          · simp [h1, h2, hm] at h
          · by_cases h3 : n ≤ 0
            · simp [h1, h2, hm, h3] at h
            · rcases hk : pyInt c.get_num_cpus_per_machine with _ | k
              · simp [h1, h2, hm, h3, hk] at h
              · by_cases h4 : k ≤ 0
                · simp [h1, h2, hm, h3, hk, h4] at h
                · exact ⟨h1, by simpa using h2,
                    by simp [hm, decide_eq_true_eq]; omega,
                    by simp [hk, decide_eq_true_eq]; omega⟩
        · simp [h1, h2] at h
    · rintro ⟨h1, h2, h3, h4⟩
      rcases hm : pyInt c.get_num_machines with _ | n
      · simp [hm] at h3
      · rcases hk : pyInt c.get_num_cpus_per_machine with _ | k
        · simp [hk] at h4
        · simp [hm, decide_eq_true_eq] at h3
          simp [hk, decide_eq_true_eq] at h4
          simp [h1, h2, hm, hk, show ¬ n ≤ 0 by omega,
            show ¬ k ≤ 0 by omega]
  · by_cases h1 : c.get_computer = Option.none
    · simp [h1, raisedValidationE]
    · by_cases h2 : pyInStrList c.get_state calc_states
      · rcases hm : pyInt c.get_num_machines with _ | n
        · simp [h1, h2, hm, raisedValidationE]
        · by_cases h3 : n ≤ 0
          · simp [h1, h2, hm, h3, raisedValidationE]
          · rcases hk : pyInt c.get_num_cpus_per_machine with _ | k
            · simp [h1, h2, hm, h3, hk, raisedValidationE]
            · by_cases h4 : k ≤ 0 <;>
                simp [h1, h2, hm, h3, hk, h4, raisedValidationE]
      · simp [h1, h2, raisedValidationE]

/-- Witness for C4 amended: `cNew` satisfies all four conditions and its
validation succeeds. -/
theorem C4_validate_amended_witness :
    Calculation.validate cNew = Except.ok () :=
  (C4_validate_amended cNew).1.mpr ⟨by decide, by decide, by decide, by decide⟩

/-- Counterexample to C5: `cFinished` is in the terminal state FINISHED,
yet `_set_scheduler_state` succeeds and replaces the stored scheduler state
(DONE becomes queued), and `_set_last_jobinfo` succeeds too — neither
setter raises `ModificationNotAllowed` in a terminal state. -/
theorem C5_terminal_write_counterexample :
    pyEqStr (Calculation.get_state cFinished) "FINISHED" = true ∧
    succeeded (Calculation._set_scheduler_state cFinished
      (PyVal.str "queued")) = true ∧
    Calculation.get_scheduler_state
      ((Calculation._set_scheduler_state cFinished
        (PyVal.str "queued")).toOption.getD cFinished) = PyVal.str "queued" ∧
    Calculation.get_scheduler_state cFinished = PyVal.str "DONE" ∧
    succeeded (Calculation._set_last_jobinfo cFinished
      (PyVal.str "info")) = true :=
  ⟨by decide, by decide, rfl, rfl, by decide⟩

/-- C5 amended: `_set_scheduler_state` and `_set_last_jobinfo` perform no
state check at all: in every state — terminal ones included — the write
succeeds, storing the stringified scheduler state and the pickled job
info respectively. -/
theorem C5_unguarded_status_setters (c : Calculation) (v : PyVal) :
    Calculation._set_scheduler_state c v =
      Except.ok { c with attrs :=
        (set_attr c.attrs "scheduler_state" (PyVal.str (pyUnicode v))) } ∧
    Calculation._set_last_jobinfo c v =
      Except.ok { c with attrs :=
        (set_attr c.attrs "last_jobinfo" (PyVal.pickled v)) } :=
  ⟨rfl, rfl⟩

/-- Counterexample to C6: on the unstored `cNew` the computer reference can
be set twice in a row, to two different computers, both calls succeeding —
the reference is not "set at most once" before storing. -/
theorem C6_set_computer_counterexample :
    cNew.toBeStored = true ∧
    Calculation.set_computer cNew 1 =
      Except.ok { cNew with dbComputer := some 1 } ∧
    Calculation.set_computer { cNew with dbComputer := some 1 } 2 =
      Except.ok { cNew with dbComputer := some 2 } :=
  ⟨rfl, rfl, rfl⟩

/-- C6 amended: `set_computer` succeeds exactly while the node is not yet
stored (`_to_be_stored` true), overwriting any previous reference on each
call; once the node is stored it raises `ModificationNotAllowed` (the
failure carries no modified node, so the reference is unchanged). -/
theorem C6_set_computer_amended (c : Calculation) (computer : Nat) :
    (c.toBeStored = true →
      Calculation.set_computer c computer =
        Except.ok { c with dbComputer := some computer }) ∧
    (c.toBeStored = false →
      raisedMNA (Calculation.set_computer c computer) = true) := by
  refine ⟨fun h => ?_, fun h => ?_⟩ <;>
    simp [Calculation.set_computer, raisedMNA, h]

/-- Witness for C6 amended: setting the computer succeeds on the unstored
`cNew` and is rejected on the stored `cSubmitting`. -/
theorem C6_set_computer_amended_witness :
    Calculation.set_computer cNew 5 =
      Except.ok { cNew with dbComputer := some 5 } ∧
    raisedMNA (Calculation.set_computer cSubmitting 5) = true :=
  ⟨(C6_set_computer_amended cNew 5).1 (by decide),
   (C6_set_computer_amended cSubmitting 5).2 (by decide)⟩

/-- C7: `_store_raw_input_folder` raises `ModificationNotAllowed` in every
state other than SUBMITTING, before touching the folder (the error carries
no modified node); in SUBMITTING it materializes the raw-input subfolder
from the given path. -/
theorem C7_raw_input_folder_submitting_only (c : Calculation) (p : String) :
    (pyEqStr c.get_state "SUBMITTING" = false →
      raisedMNA (Calculation._store_raw_input_folder c p) = true) ∧
    (pyEqStr c.get_state "SUBMITTING" = true →
      Calculation._store_raw_input_folder c p =
        Except.ok { c with rawInputFolder := some p }) := by
  refine ⟨fun h => ?_, fun h => ?_⟩ <;>
    simp [Calculation._store_raw_input_folder, raisedMNA, h]

/-- Witness for C7: storing the raw input folder fails on the NEW `cNew`
and succeeds on `cSubmitting`. -/
theorem C7_raw_input_folder_submitting_only_witness :
    raisedMNA (Calculation._store_raw_input_folder cNew "/tmp/in") = true ∧
    Calculation._store_raw_input_folder cSubmitting "/tmp/in" =
      Except.ok { cSubmitting with rawInputFolder := some "/tmp/in" } :=
  ⟨(C7_raw_input_folder_submitting_only cNew "/tmp/in").1 (by decide),
   (C7_raw_input_folder_submitting_only cSubmitting "/tmp/in").2 (by decide)⟩

/-- C8: `submit` requires state NEW (otherwise no delegation attempt is
made and an error is surfaced); it calls `validate()` and surfaces any
validation error without delegating; when validation passes it performs
exactly one delegation attempt, ending in state SUBMITTING with no error
on delegation success, and in state SUBMISSION_FAILED with the underlying
error surfaced — and still only one attempt — on delegation failure. -/
theorem C8_submit_coordination (c : Calculation) (d : Option PyError) :
    (pyEqStr c.get_state "NEW" = false →
      (Calculation.submit c d).delegationAttempts = 0 ∧
      (Calculation.submit c d).outcome.isSome = true) ∧
    (pyEqStr c.get_state "NEW" = true →
      (∀ e, Calculation.validate c = Except.error e →
        Calculation.submit c d =
          { calcNode := c, outcome := some e, delegationAttempts := 0 }) ∧
      (Calculation.validate c = Except.ok () →
        (Calculation.submit c d).delegationAttempts = 1 ∧
        (d = Option.none →
          (Calculation.submit c d).outcome = Option.none ∧
          pyEqStr (Calculation.submit c d).calcNode.get_state "SUBMITTING"
            = true) ∧
        (∀ e, d = some e →
          (Calculation.submit c d).outcome = some e ∧
          pyEqStr (Calculation.submit c d).calcNode.get_state
            "SUBMISSION_FAILED" = true))) := by
  refine ⟨fun h => ?_, fun h => ⟨fun e he => ?_, fun hv => ?_⟩⟩
  · simp [Calculation.submit, submit_calc, h]
  · simp [Calculation.submit, submit_calc, h, he]
  · refine ⟨?_, fun hd => ?_, fun e hd => ?_⟩
    · cases d <;> simp [Calculation.submit, submit_calc, h, hv]
    · subst hd
      simp only [Calculation.submit, submit_calc, h, hv, Bool.not_true,
        Bool.false_eq_true, if_false]
      exact ⟨rfl, by simp [Calculation.get_state, get_attr_set_attr, pyEqStr]⟩
    · subst hd
      simp only [Calculation.submit, submit_calc, h, hv, Bool.not_true,
        Bool.false_eq_true, if_false]
      exact ⟨rfl, by simp [Calculation.get_state, get_attr_set_attr, pyEqStr]⟩

/-- Witness for C8: submitting the valid NEW calculation `cNew` makes one
delegation attempt and lands in SUBMITTING on success; with a failing
delegation it lands in SUBMISSION_FAILED surfacing the error; submitting
the SUBMITTING calculation makes no delegation attempt. -/
theorem C8_submit_coordination_witness :
    (Calculation.submit cNew Option.none).delegationAttempts = 1 ∧
    pyEqStr (Calculation.submit cNew Option.none).calcNode.get_state
      "SUBMITTING" = true ∧
    (Calculation.submit cNew
      (some (PyError.ValueError "boom"))).outcome =
      some (PyError.ValueError "boom") ∧
    pyEqStr (Calculation.submit cNew
      (some (PyError.ValueError "boom"))).calcNode.get_state
      "SUBMISSION_FAILED" = true ∧
    (Calculation.submit cSubmitting Option.none).delegationAttempts = 0 :=
  ⟨(((C8_submit_coordination cNew Option.none).2 (by decide)).2 rfl).1,
   ((((C8_submit_coordination cNew Option.none).2 (by decide)).2 rfl).2.1
     rfl).2,
   ((((C8_submit_coordination cNew
       (some (PyError.ValueError "boom"))).2 (by decide)).2 rfl).2.2
     (PyError.ValueError "boom") rfl).1,
   ((((C8_submit_coordination cNew
       (some (PyError.ValueError "boom"))).2 (by decide)).2 rfl).2.2
     (PyError.ValueError "boom") rfl).2,
   ((C8_submit_coordination cSubmitting Option.none).1 (by decide)).1⟩

/-- C10: in state SUBMITTING, `_set_retrieve_list` raises `ValueError` when
the value is not a list or tuple of strings (the pure failure leaving the
attribute unchanged), and writes the attribute exactly when it is. -/
theorem C10_retrieve_list_type_check (c : Calculation) (v : PyVal)
    (h : pyEqStr c.get_state "SUBMITTING" = true) :
    (validRetrieveList v = false →
      raisedVE (Calculation._set_retrieve_list c v) = true) ∧
    (validRetrieveList v = true →
      Calculation._set_retrieve_list c v =
        Except.ok { c with attrs := set_attr c.attrs "retrieve_list" v }) := by
  refine ⟨fun hv => ?_, fun hv => ?_⟩ <;>
    simp [Calculation._set_retrieve_list, raisedVE, h, hv]

/-- Witness for C10: on `cSubmitting` an integer value is rejected with
`ValueError` and a list of strings is stored. -/
theorem C10_retrieve_list_type_check_witness :
    raisedVE (Calculation._set_retrieve_list cSubmitting (PyVal.int 3))
      = true ∧
    Calculation._set_retrieve_list cSubmitting
      (PyVal.list [PyVal.str "out.txt"]) =
      Except.ok { cSubmitting with attrs :=
        (set_attr cSubmitting.attrs "retrieve_list"
          (PyVal.list [PyVal.str "out.txt"])) } :=
  ⟨(C10_retrieve_list_type_check cSubmitting (PyVal.int 3) (by decide)).1
     (by decide),
   (C10_retrieve_list_type_check cSubmitting
     (PyVal.list [PyVal.str "out.txt"]) (by decide)).2 (by decide)⟩
